import Mathlib

/-!
Shallow embedding of the reconciliation core of obsidian-kisss3
(src/sync/SyncTypes.ts, src/sync/SyncDecisionEngine.ts, src/sync/SyncManager.ts),
together with theorems checking the natural-language specification against it.

Conventions of the embedding:
* JS `number` mtimes (integer milliseconds) are `Nat`.
* A possibly-`undefined` value is an `Option`; JS truthiness of a
  `number | undefined` is false exactly on `undefined` and `0`
  (captured by `numTruthy`), while truthiness of an object reference
  is simply its presence (`Option.isSome`).
* JS `Map<string, V>` is an association list `List (String × V)` with
  `Map.get` as `getEntry` (first match) and `Map.set` as `setEntry`
  (replace in place, else append), matching insertion-order semantics.
* `async` collaborator calls that can throw are modelled with
  `Except String`.
-/

namespace KissS3

/-- FileStatus enum from src/sync/SyncTypes.ts. -/
inductive FileStatus where
  | CREATED
  | MODIFIED
  | DELETED
  | UNCHANGED
  | NONEXIST
deriving DecidableEq, Repr

/-- SyncAction enum from src/sync/SyncTypes.ts. -/
inductive SyncAction where
  | UPLOAD
  | DOWNLOAD
  | DELETE_LOCAL
  | DELETE_REMOTE
  | CONFLICT
  | DO_NOTHING
deriving DecidableEq, Repr

/-- SyncFileState from src/sync/SyncTypes.ts: the baseline entry for one
path, each side's mtime optional. -/
structure SyncFileState where
  localMtime : Option Nat
  remoteMtime : Option Nat
deriving DecidableEq, Repr

/-- RemoteFile from src/sync/SyncTypes.ts (FileInfo plus the S3 object key). -/
structure RemoteFile where
  path : String
  mtime : Nat
  key : String
deriving DecidableEq, Repr

/-- FileSyncDecision from src/sync/SyncTypes.ts. -/
structure FileSyncDecision where
  filePath : String
  localStatus : FileStatus
  remoteStatus : FileStatus
  action : SyncAction
  conflictType : Option String
deriving DecidableEq, Repr

/-- JS truthiness of a `number | undefined` value: false exactly for
`undefined` and `0`. -/
def numTruthy : Option Nat → Bool
  | none => false
  | some t => decide (t ≠ 0)

/-- Rendering of a FileStatus enum member, as used in template strings. -/
def statusText : FileStatus → String
  | FileStatus.CREATED => "CREATED"
  | FileStatus.MODIFIED => "MODIFIED"
  | FileStatus.DELETED => "DELETED"
  | FileStatus.UNCHANGED => "UNCHANGED"
  | FileStatus.NONEXIST => "NONEXIST"

/-- SyncDecisionEngine.getConflictDescription (src/sync/SyncDecisionEngine.ts,
lines 292-297). -/
def getConflictDescription (localStatus remoteStatus : FileStatus) : String :=
  "Local: " ++ statusText localStatus ++ ", Remote: " ++ statusText remoteStatus

/-- SyncDecisionEngine.determineFileStatus (src/sync/SyncDecisionEngine.ts,
lines 126-163).  `file` is the observed file's mtime, present exactly when
the file object is present in the respective map (the function consults
only the object's presence and its `mtime` field); `syncState` is the
baseline entry, if any.  The JS guards `!file` / `!stateTime` are
object-presence and number-truthiness respectively. -/
def determineFileStatus (file : Option Nat) (syncState : Option SyncFileState)
    (isLocal : Bool) : FileStatus :=
  let stateTime : Option Nat :=
    if isLocal then Option.bind syncState SyncFileState.localMtime
    else Option.bind syncState SyncFileState.remoteMtime
  if file.isNone && !numTruthy stateTime then FileStatus.UNCHANGED
  else if file.isNone && numTruthy stateTime then FileStatus.DELETED
  else if file.isSome && !numTruthy stateTime then FileStatus.CREATED
  else
    match file, stateTime with
    | some mtime, some stateMtime =>
      if mtime > stateMtime then FileStatus.MODIFIED else FileStatus.UNCHANGED
    | _, _ => FileStatus.UNCHANGED

/-- SyncDecisionEngine.resolveConflict (src/sync/SyncDecisionEngine.ts,
lines 241-287).  `localFile`/`remoteFile` carry the observed mtimes,
present exactly when the file objects are present. -/
def resolveConflict (localStatus remoteStatus : FileStatus)
    (localFile remoteFile : Option Nat) : SyncAction :=
  if localStatus = FileStatus.DELETED ∧ remoteStatus = FileStatus.MODIFIED then
    SyncAction.DOWNLOAD
  else if localStatus = FileStatus.MODIFIED ∧ remoteStatus = FileStatus.DELETED then
    SyncAction.UPLOAD
  else if localStatus = FileStatus.DELETED ∧ remoteStatus = FileStatus.CREATED then
    SyncAction.DOWNLOAD
  else if localStatus = FileStatus.CREATED ∧ remoteStatus = FileStatus.DELETED then
    SyncAction.UPLOAD
  else
    match localFile, remoteFile with
    | some lm, some rm =>
      if lm > rm then SyncAction.UPLOAD
      else if rm > lm then SyncAction.DOWNLOAD
      else SyncAction.CONFLICT
    | _, _ => SyncAction.CONFLICT

/-- SyncDecisionEngine.applyDecisionMatrix (src/sync/SyncDecisionEngine.ts,
lines 168-236).  The two cases after the both-changed case are unreachable
in the source (any pair with a DELETED side already satisfies the
both-changed guard) but are kept to mirror the code. -/
def applyDecisionMatrix (localStatus remoteStatus : FileStatus)
    (localFile remoteFile : Option Nat) : SyncAction :=
  if localStatus ≠ FileStatus.UNCHANGED ∧ remoteStatus = FileStatus.UNCHANGED then
    if localStatus = FileStatus.DELETED then SyncAction.DELETE_REMOTE
    else SyncAction.UPLOAD
  else if localStatus = FileStatus.UNCHANGED ∧ remoteStatus ≠ FileStatus.UNCHANGED then
    if remoteStatus = FileStatus.DELETED then SyncAction.DELETE_LOCAL
    else SyncAction.DOWNLOAD
  else if localStatus ≠ FileStatus.UNCHANGED ∧ remoteStatus ≠ FileStatus.UNCHANGED then
    resolveConflict localStatus remoteStatus localFile remoteFile
  else if localStatus = FileStatus.DELETED ∧ remoteStatus ≠ FileStatus.UNCHANGED then
    if remoteStatus = FileStatus.DELETED then SyncAction.DO_NOTHING
    else SyncAction.DOWNLOAD
  else if remoteStatus = FileStatus.DELETED ∧ localStatus ≠ FileStatus.UNCHANGED then
    if localStatus = FileStatus.DELETED then SyncAction.DO_NOTHING
    else SyncAction.UPLOAD
  else SyncAction.DO_NOTHING

/-- SyncDecisionEngine.analyzeFile (src/sync/SyncDecisionEngine.ts,
lines 76-121): statuses of both sides, then the decision matrix.
`localFile`/`remoteFile` are the observed mtimes of the respective map
entries, present exactly when the entry is. -/
def analyzeFile (filePath : String) (localFile remoteFile : Option Nat)
    (syncState : Option SyncFileState) : FileSyncDecision :=
  let localStatus := determineFileStatus localFile syncState true
  let remoteStatus := determineFileStatus remoteFile syncState false
  let action := applyDecisionMatrix localStatus remoteStatus localFile remoteFile
  { filePath := filePath
    localStatus := localStatus
    remoteStatus := remoteStatus
    action := action
    conflictType :=
      if action = SyncAction.CONFLICT then
        some (getConflictDescription localStatus remoteStatus)
      else none }

/-- Association-list rendering of the JS `Map` types from
src/sync/SyncTypes.ts; a LocalFile is represented by its mtime (its
`path` field always equals the key). -/
abbrev LocalFilesMap := List (String × Nat)

/-- Map from path to RemoteFile, as in src/sync/SyncTypes.ts. -/
abbrev RemoteFilesMap := List (String × RemoteFile)

/-- Map from path to baseline entry, as in src/sync/SyncTypes.ts. -/
abbrev StateFilesMap := List (String × SyncFileState)

/-- JS `Map.get`: the value at the key, if present. -/
def getEntry {α : Type} : List (String × α) → String → Option α
  | [], _ => none
  | (k, v) :: rest, key => if k = key then some v else getEntry rest key

/-- JS `Map.set`: replace the entry in place if the key exists, else
append it. -/
def setEntry {α : Type} : List (String × α) → String → α → List (String × α)
  | [], key, v => [(key, v)]
  | (k, w) :: rest, key, v =>
    if k = key then (key, v) :: rest else (k, w) :: setEntry rest key v

/-- First-occurrence deduplication, the iteration order of a JS `Set`
built by insertion. -/
def dedupFrom : List String → List String → List String
  | [], _ => []
  | x :: xs, seen =>
    if x ∈ seen then dedupFrom xs seen else x :: dedupFrom xs (x :: seen)

/-- Deduplicated key union in first-insertion order. -/
def dedup (l : List String) : List String := dedupFrom l []

/-- SyncDecisionEngine.generateSyncDecisions (src/sync/SyncDecisionEngine.ts,
lines 25-71): one decision per path of the union of the three key sets. -/
def generateSyncDecisions (localFiles : LocalFilesMap) (remoteFiles : RemoteFilesMap)
    (stateFiles : StateFilesMap) : List FileSyncDecision :=
  let allFilePaths :=
    dedup (localFiles.map Prod.fst ++ remoteFiles.map Prod.fst ++ stateFiles.map Prod.fst)
  allFilePaths.map (fun filePath =>
    analyzeFile filePath (getEntry localFiles filePath)
      ((getEntry remoteFiles filePath).map RemoteFile.mtime)
      (getEntry stateFiles filePath))

/-- The six accessor values the code reads off a JS `Date`
(getFullYear, getMonth — zero-based —, getDate, getHours, getMinutes,
getSeconds), left abstract since civil-calendar decomposition of an epoch
timestamp is environment (timezone) dependent. -/
structure DateParts where
  year : Nat
  month : Nat
  day : Nat
  hours : Nat
  minutes : Nat
  seconds : Nat
deriving DecidableEq, Repr

/-- JS `String.padStart(n, "0")`. -/
def padStartZero (n : Nat) (s : String) : String :=
  if n ≤ s.length then s else String.mk (List.replicate (n - s.length) '0') ++ s

/-- Two-digit zero-padded rendering of a number, `toString().padStart(2, "0")`. -/
def pad2 (v : Nat) : String := padStartZero 2 (toString v)

/-- JS `String.lastIndexOf` for a single character, as a char index
(`none` for the JS result `-1`). -/
def lastIndexOfChar (cs : List Char) (c : Char) : Option Nat :=
  ((List.range cs.length).filter (fun i => cs.get? i == some c)).getLast?

/-- SyncManager.getConflictFileName (src/sync/SyncManager.ts, lines
716-737): insert ` (conflict <timestamp>)` before the extension (after
the whole name when there is no dot). -/
def getConflictFileName (originalPath : String) (conflictDate : DateParts) : String :=
  let cs := originalPath.toList
  let timestamp :=
    toString conflictDate.year ++ pad2 (conflictDate.month + 1) ++ pad2 conflictDate.day
      ++ "-" ++ pad2 conflictDate.hours ++ pad2 conflictDate.minutes
      ++ pad2 conflictDate.seconds
  match lastIndexOfChar cs '.' with
  | some lastDotIndex =>
    String.mk (cs.take lastDotIndex) ++ " (conflict " ++ timestamp ++ ")"
      ++ String.mk (cs.drop lastDotIndex)
  | none => originalPath ++ " (conflict " ++ timestamp ++ ")"

/-- State-map effect of SyncManager.executeUpload (src/sync/SyncManager.ts,
lines 595-613) on success: the path's baseline entry becomes the local
file's mtime paired with the mtime the store reported for the write.
(The error path — local file missing — throws and is modelled by the
abstract `step` of `runSync`.) -/
def executeUpload (decision : FileSyncDecision) (localMtime actualRemoteMtime : Nat)
    (stateFiles : StateFilesMap) : StateFilesMap :=
  setEntry stateFiles decision.filePath
    { localMtime := some localMtime, remoteMtime := some actualRemoteMtime }

/-- SyncManager.handleConflict (src/sync/SyncManager.ts, lines 652-696).
`dateOf` is the environment's civil-time decomposition used by
`new Date(mtime)`; `localFile` is the local file's mtime when the vault
has the path; `actualRemoteMtime` is the store's mtime for the upload of
the local content.  Returns the updated state map and the name of the
conflict file created in the vault (`none` when resolution was skipped
because a side was missing: the code warns and returns).  Only the
original path's entry is written to the state map. -/
def handleConflict (dateOf : Nat → DateParts) (decision : FileSyncDecision)
    (localFile : Option Nat) (remoteFile : Option RemoteFile)
    (actualRemoteMtime : Nat) (stateFiles : StateFilesMap) :
    StateFilesMap × Option String :=
  match localFile, remoteFile with
  | some localMtime, some rf =>
    let conflictFileName := getConflictFileName decision.filePath (dateOf rf.mtime)
    (setEntry stateFiles decision.filePath
      { localMtime := some localMtime, remoteMtime := some actualRemoteMtime },
     some conflictFileName)
  | _, _ => (stateFiles, none)

/-- The filter of SyncManager.saveUpdatedSyncState (src/sync/SyncManager.ts,
lines 742-768): an entry survives into the persisted state iff the outer
guard (both timestamps or neither, via `!== undefined`) and the inner
guard (at least one timestamp) both pass. -/
def saveUpdatedSyncState (stateFiles : StateFilesMap) : StateFilesMap :=
  stateFiles.filter (fun e =>
    let hasLocal := e.2.localMtime.isSome
    let hasRemote := e.2.remoteMtime.isSome
    if (hasLocal && hasRemote) || (!hasLocal && !hasRemote) then
      hasLocal || hasRemote
    else false)

/-- The execution sequence of SyncManager.executeSyncDecisions
(src/sync/SyncManager.ts, lines 494-537): the four phase filters,
concatenated in the order the four loops run. -/
def orderedDecisions (decisions : List FileSyncDecision) : List FileSyncDecision :=
  let downloads := decisions.filter (fun d => decide (d.action = SyncAction.DOWNLOAD))
  let uploads := decisions.filter (fun d => decide (d.action = SyncAction.UPLOAD))
  let deletes := decisions.filter (fun d =>
    decide (d.action = SyncAction.DELETE_LOCAL ∨ d.action = SyncAction.DELETE_REMOTE))
  let conflicts := decisions.filter (fun d => decide (d.action = SyncAction.CONFLICT))
  downloads ++ uploads ++ deletes ++ conflicts

/-- Sequential execution of a list of actions through an abstract
single-action executor; the first thrown error aborts the rest, as an
uncaught rejection does in the `for`-`await` loops. -/
def execAll (step : FileSyncDecision → StateFilesMap → Except String StateFilesMap) :
    List FileSyncDecision → StateFilesMap → Except String StateFilesMap
  | [], stateFiles => Except.ok stateFiles
  | d :: rest, stateFiles =>
    match step d stateFiles with
    | Except.error e => Except.error e
    | Except.ok updated => execAll step rest updated

/-- SyncManager.executeSyncDecisions (src/sync/SyncManager.ts, lines
494-537): run the phase-ordered decisions through the single-action
executor, threading the working state map. -/
def executeSyncDecisions
    (step : FileSyncDecision → StateFilesMap → Except String StateFilesMap)
    (decisions : List FileSyncDecision) (stateFiles : StateFilesMap) :
    Except String StateFilesMap :=
  execAll step (orderedDecisions decisions) stateFiles

/-- Outcome classification of a run, success or failure. -/
inductive RunStatus where
  | SUCCESS
  | FAILED
deriving DecidableEq, Repr

/-- Result of one run: its status and the baseline that is persisted
after it (on failure, the previously committed baseline, untouched). -/
structure RunResult where
  status : RunStatus
  committedState : StateFilesMap
deriving DecidableEq, Repr

/-- SyncManager.runSync (src/sync/SyncManager.ts, lines 305-356):
snapshot the three maps (any error is caught and leaves the previous
baseline), plan, execute (any error likewise), and only then persist the
filtered working state.  `snapshot` abstracts step 1's collaborator
calls, `step` abstracts one action's execution. -/
def runSync (previousState : StateFilesMap)
    (snapshot : Except String (LocalFilesMap × RemoteFilesMap × StateFilesMap))
    (step : FileSyncDecision → StateFilesMap → Except String StateFilesMap) :
    RunResult :=
  match snapshot with
  | Except.error _ => { status := RunStatus.FAILED, committedState := previousState }
  | Except.ok (localFiles, remoteFiles, stateFiles) =>
    let decisions := generateSyncDecisions localFiles remoteFiles stateFiles
    match executeSyncDecisions step decisions stateFiles with
    | Except.error _ => { status := RunStatus.FAILED, committedState := previousState }
    | Except.ok updated =>
      { status := RunStatus.SUCCESS, committedState := saveUpdatedSyncState updated }

/-- Index of the execution phase an action belongs to: Download (0),
Upload (1), Delete (2, both directions), Conflict (3); DO_NOTHING (4) is
never executed. -/
def phaseIdx : SyncAction → Nat
  | SyncAction.DOWNLOAD => 0
  | SyncAction.UPLOAD => 1
  | SyncAction.DELETE_LOCAL => 2
  | SyncAction.DELETE_REMOTE => 2
  | SyncAction.CONFLICT => 3
  | SyncAction.DO_NOTHING => 4

/-! ## Helper lemmas -/

theorem analyzeFile_localStatus (filePath : String) (localFile remoteFile : Option Nat)
    (syncState : Option SyncFileState) :
    (analyzeFile filePath localFile remoteFile syncState).localStatus =
      determineFileStatus localFile syncState true := rfl

theorem analyzeFile_remoteStatus (filePath : String) (localFile remoteFile : Option Nat)
    (syncState : Option SyncFileState) :
    (analyzeFile filePath localFile remoteFile syncState).remoteStatus =
      determineFileStatus remoteFile syncState false := rfl

theorem analyzeFile_action (filePath : String) (localFile remoteFile : Option Nat)
    (syncState : Option SyncFileState) :
    (analyzeFile filePath localFile remoteFile syncState).action =
      applyDecisionMatrix (determineFileStatus localFile syncState true)
        (determineFileStatus remoteFile syncState false) localFile remoteFile := rfl

/-- Reformulation of `determineFileStatus` as a table over the observed
mtime and the (side-selected) stored mtime, making the JS zero-truthiness
explicit. -/
theorem determineFileStatus_table (file : Option Nat) (syncState : Option SyncFileState)
    (isLocal : Bool) :
    determineFileStatus file syncState isLocal =
      match file,
        (if isLocal then Option.bind syncState SyncFileState.localMtime
         else Option.bind syncState SyncFileState.remoteMtime) with
      | none, none => FileStatus.UNCHANGED
      | none, some t => if t = 0 then FileStatus.UNCHANGED else FileStatus.DELETED
      | some _, none => FileStatus.CREATED
      | some m, some t =>
        if t = 0 then FileStatus.CREATED
        else if m > t then FileStatus.MODIFIED else FileStatus.UNCHANGED := by
  simp only [determineFileStatus]
  generalize (if isLocal then Option.bind syncState SyncFileState.localMtime
    else Option.bind syncState SyncFileState.remoteMtime) = stateTime
  rcases file with _ | m <;> rcases stateTime with _ | t
  · rfl
  · by_cases ht : t = 0 <;> simp [numTruthy, ht]
  · rfl
  · by_cases ht : t = 0 <;> simp [numTruthy, ht]

theorem determineFileStatus_changed_isSome (file : Option Nat)
    (syncState : Option SyncFileState) (isLocal : Bool)
    (h : determineFileStatus file syncState isLocal = FileStatus.CREATED
      ∨ determineFileStatus file syncState isLocal = FileStatus.MODIFIED) :
    file.isSome = true := by
  rcases file with _ | m
  · rw [determineFileStatus_table] at h
    rcases h with h | h <;> revert h <;>
      rcases (if isLocal then Option.bind syncState SyncFileState.localMtime
        else Option.bind syncState SyncFileState.remoteMtime) with _ | t <;>
      simp <;> split <;> simp
  · rfl

theorem applyDecisionMatrix_bothChanged (localStatus remoteStatus : FileStatus)
    (lm rm : Nat)
    (hl : localStatus = FileStatus.CREATED ∨ localStatus = FileStatus.MODIFIED)
    (hr : remoteStatus = FileStatus.CREATED ∨ remoteStatus = FileStatus.MODIFIED) :
    applyDecisionMatrix localStatus remoteStatus (some lm) (some rm) =
      if lm > rm then SyncAction.UPLOAD
      else if rm > lm then SyncAction.DOWNLOAD
      else SyncAction.CONFLICT := by
  rcases hl with rfl | rfl <;> rcases hr with rfl | rfl <;> rfl

theorem getEntry_setEntry_self {α : Type} (m : List (String × α)) (k : String) (v : α) :
    getEntry (setEntry m k v) k = some v := by
  induction m with
  | nil => simp [setEntry, getEntry]
  | cons hd tl ih =>
    obtain ⟨k', w⟩ := hd
    by_cases h : k' = k <;> simp [setEntry, getEntry, h, ih]

theorem getEntry_setEntry_ne {α : Type} (m : List (String × α)) (k q : String) (v : α)
    (h : q ≠ k) : getEntry (setEntry m k v) q = getEntry m q := by
  induction m with
  | nil => simp [setEntry, getEntry, Ne.symm h]
  | cons hd tl ih =>
    obtain ⟨k', w⟩ := hd
    by_cases hk : k' = k
    · subst hk
      simp [setEntry, getEntry, Ne.symm h]
    · simp [setEntry, getEntry, hk, ih]

theorem mem_saveUpdatedSyncState (stateFiles : StateFilesMap) (k : String)
    (v : SyncFileState) :
    (k, v) ∈ saveUpdatedSyncState stateFiles ↔
      (k, v) ∈ stateFiles ∧ v.localMtime.isSome = true ∧ v.remoteMtime.isSome = true := by
  simp only [saveUpdatedSyncState, List.mem_filter]
  rcases v with ⟨_ | lt, _ | rt⟩ <;> simp

/-! ## Claim theorems -/

/-- C1: for a path present in the baseline with both mtimes set but
absent from both the local and the remote map, both statuses are DELETED
and the decision engine returns CONFLICT — not the DO_NOTHING that the
claim (with the repository's own decision-matrix documentation, its dead
both-deleted branches, and its test expecting DO_NOTHING for
`deleted-both.md`) requires.  The both-changed guard routes the pair of
DELETED statuses into `resolveConflict`, where no rule matches and the
fallback CONFLICT is returned. -/
theorem c1_bothDeleted_decides_CONFLICT :
    analyzeFile "deleted-both.md" none none (some ⟨some 1100, some 1150⟩) =
      { filePath := "deleted-both.md", localStatus := FileStatus.DELETED,
        remoteStatus := FileStatus.DELETED, action := SyncAction.CONFLICT,
        conflictType := some "Local: DELETED, Remote: DELETED" } := by
  rfl

/-- C3: whenever both sides' statuses are CREATED or MODIFIED (any
combination), both files are necessarily observed and the decision is
the pure mtime tie-break: strictly greater local mtime gives UPLOAD,
strictly greater remote mtime gives DOWNLOAD, equality gives CONFLICT. -/
theorem c3_bothChanged_mtime_tiebreak :
    ∀ (filePath : String) (localFile remoteFile : Option Nat)
      (syncState : Option SyncFileState),
      ((analyzeFile filePath localFile remoteFile syncState).localStatus = FileStatus.CREATED
        ∨ (analyzeFile filePath localFile remoteFile syncState).localStatus
            = FileStatus.MODIFIED) →
      ((analyzeFile filePath localFile remoteFile syncState).remoteStatus = FileStatus.CREATED
        ∨ (analyzeFile filePath localFile remoteFile syncState).remoteStatus
            = FileStatus.MODIFIED) →
      ∃ lm rm, localFile = some lm ∧ remoteFile = some rm ∧
        (analyzeFile filePath localFile remoteFile syncState).action =
          if lm > rm then SyncAction.UPLOAD
          else if rm > lm then SyncAction.DOWNLOAD
          else SyncAction.CONFLICT := by
  intro p lf rf s hl hr
  rw [analyzeFile_localStatus] at hl
  rw [analyzeFile_remoteStatus] at hr
  have hlf := determineFileStatus_changed_isSome _ _ _ hl
  have hrf := determineFileStatus_changed_isSome _ _ _ hr
  rcases lf with _ | lm
  · simp at hlf
  rcases rf with _ | rm
  · simp at hrf
  refine ⟨lm, rm, rfl, rfl, ?_⟩
  rw [analyzeFile_action]
  exact applyDecisionMatrix_bothChanged _ _ _ _ hl hr

/-- Witness for C3 at the spec's own example: no baseline entry, local
mtime 300, remote mtime 200. -/
theorem c3_witness :
    ∃ lm rm, (some 300 : Option Nat) = some lm ∧ (some 200 : Option Nat) = some rm ∧
      (analyzeFile "a.md" (some 300) (some 200) none).action =
        if lm > rm then SyncAction.UPLOAD
        else if rm > lm then SyncAction.DOWNLOAD
        else SyncAction.CONFLICT :=
  c3_bothChanged_mtime_tiebreak "a.md" (some 300) (some 200) none
    (Or.inl (by decide)) (Or.inl (by decide))

/-- C4 counterexample: a baseline that stores mtime 0 for the local side
while the local file is observed with mtime 5.  The claim's
characterization requires MODIFIED (observed, stored mtime 0 strictly
less than 5, exact integer comparison), but the classifier treats the
stored 0 as absent (JS falsiness of `stateTime`) and returns CREATED. -/
theorem c4_counterexample_storedZero :
    ¬ ((determineFileStatus (some 5) (some ⟨some 0, some 3⟩) true = FileStatus.MODIFIED)
        ↔ (0 : Nat) < 5) := by
  decide

/-- C4 (amended): the claimed characterization holds once a stored mtime
of 0 is treated as no stored mtime (JS falsiness), with the not-observed
and no-(nonzero)-stored case classified UNCHANGED: CREATED iff observed
with stored mtime absent or 0; MODIFIED iff observed with nonzero stored
mtime strictly below the observed mtime; UNCHANGED iff observed with
nonzero stored mtime at least the observed mtime, or neither observed
nor nonzero stored; DELETED iff not observed with a nonzero stored
mtime; comparisons exact on integers. -/
theorem c4_classifier_characterization :
    ∀ (file : Option Nat) (syncState : Option SyncFileState) (isLocal : Bool)
      (stored : Option Nat),
      stored = (if isLocal then Option.bind syncState SyncFileState.localMtime
                else Option.bind syncState SyncFileState.remoteMtime) →
      ((determineFileStatus file syncState isLocal = FileStatus.CREATED ↔
          file.isSome = true ∧ (stored = none ∨ stored = some 0))
        ∧ (determineFileStatus file syncState isLocal = FileStatus.MODIFIED ↔
            ∃ m t, file = some m ∧ stored = some t ∧ 0 < t ∧ t < m)
        ∧ (determineFileStatus file syncState isLocal = FileStatus.UNCHANGED ↔
            ((∃ m t, file = some m ∧ stored = some t ∧ 0 < t ∧ m ≤ t)
              ∨ (file = none ∧ (stored = none ∨ stored = some 0))))
        ∧ (determineFileStatus file syncState isLocal = FileStatus.DELETED ↔
            file = none ∧ ∃ t, stored = some t ∧ 0 < t)) := by
  intro file s b stored hst
  subst hst
  rw [determineFileStatus_table]
  generalize (if b then Option.bind s SyncFileState.localMtime
    else Option.bind s SyncFileState.remoteMtime) = st
  rcases file with _ | m <;> rcases st with _ | t
  · simp
  · by_cases ht : t = 0
    · simp [ht]
    · simp [ht]
      omega
  · simp
  · by_cases ht : t = 0
    · subst ht
      simp
    · by_cases hmt : m > t <;> simp [ht, hmt] <;> omega

/-- Witness for C4 at local side, observed mtime 7 over stored mtime 3:
the characterization classifies it MODIFIED. -/
theorem c4_witness :
    determineFileStatus (some 7) (some ⟨some 3, some 9⟩) true = FileStatus.MODIFIED :=
  ((c4_classifier_characterization (some 7) (some ⟨some 3, some 9⟩) true (some 3)
    rfl).2.1).mpr ⟨7, 3, rfl, rfl, by decide, by decide⟩

/-- C5: a DELETED side against a MODIFIED or CREATED side loses
unconditionally — the decision is DOWNLOAD when the local side is the
deleted one and UPLOAD when the remote side is, for arbitrary observed
mtimes (no timestamp comparison is consulted). -/
theorem c5_change_beats_deletion :
    ∀ (localStatus remoteStatus : FileStatus) (localFile remoteFile : Option Nat),
      ((remoteStatus = FileStatus.MODIFIED ∨ remoteStatus = FileStatus.CREATED) →
        applyDecisionMatrix FileStatus.DELETED remoteStatus localFile remoteFile =
          SyncAction.DOWNLOAD)
      ∧ ((localStatus = FileStatus.MODIFIED ∨ localStatus = FileStatus.CREATED) →
        applyDecisionMatrix localStatus FileStatus.DELETED localFile remoteFile =
          SyncAction.UPLOAD) := by
  intro ls rs lf rf
  constructor
  · rintro (rfl | rfl) <;> rfl
  · rintro (rfl | rfl) <;> rfl

/-- Witness for C5 at the spec's example: baseline both 100, local
absent, remote observed at 200 (statuses DELETED/MODIFIED), plus the
symmetric case. -/
theorem c5_witness :
    applyDecisionMatrix FileStatus.DELETED FileStatus.MODIFIED none (some 200) =
        SyncAction.DOWNLOAD
      ∧ applyDecisionMatrix FileStatus.CREATED FileStatus.DELETED (some 200) none =
        SyncAction.UPLOAD :=
  ⟨(c5_change_beats_deletion FileStatus.CREATED FileStatus.MODIFIED none (some 200)).1
      (Or.inl rfl),
   (c5_change_beats_deletion FileStatus.CREATED FileStatus.MODIFIED (some 200) none).2
      (Or.inr rfl)⟩

/-- C6: when exactly one side's status differs from UNCHANGED, the
changed side determines the action: DELETED gives the matching delete
action, anything else gives UPLOAD (local changed) or DOWNLOAD (remote
changed), for arbitrary observed mtimes. -/
theorem c6_single_side_change :
    ∀ (localStatus remoteStatus : FileStatus) (localFile remoteFile : Option Nat),
      (localStatus ≠ FileStatus.UNCHANGED →
        applyDecisionMatrix localStatus FileStatus.UNCHANGED localFile remoteFile =
          if localStatus = FileStatus.DELETED then SyncAction.DELETE_REMOTE
          else SyncAction.UPLOAD)
      ∧ (remoteStatus ≠ FileStatus.UNCHANGED →
        applyDecisionMatrix FileStatus.UNCHANGED remoteStatus localFile remoteFile =
          if remoteStatus = FileStatus.DELETED then SyncAction.DELETE_LOCAL
          else SyncAction.DOWNLOAD) := by
  intro ls rs lf rf
  constructor
  · intro h
    cases ls <;> first | rfl | exact absurd rfl h
  · intro h
    cases rs <;> first | rfl | exact absurd rfl h

/-- Witness for C6: a locally deleted, remotely unchanged path is
decided DELETE_REMOTE, and a remotely created, locally unchanged path is
decided DOWNLOAD. -/
theorem c6_witness :
    applyDecisionMatrix FileStatus.DELETED FileStatus.UNCHANGED none (some 100) =
        SyncAction.DELETE_REMOTE
      ∧ applyDecisionMatrix FileStatus.UNCHANGED FileStatus.CREATED none (some 100) =
        SyncAction.DOWNLOAD := by
  constructor
  · simpa using
      (c6_single_side_change FileStatus.DELETED FileStatus.CREATED none (some 100)).1
        (by decide)
  · simpa using
      (c6_single_side_change FileStatus.DELETED FileStatus.CREATED none (some 100)).2
        (by decide)

/-- C2 counterexample: a successfully resolved conflict for `a.md`
(baseline 100/100, both sides observed at 500) starting from an empty
working state.  The derived alternate path
`a (conflict 20241022-143055).md` is claimed to receive its own baseline
entry with both sides equal to its own mtime (500); the working state
after resolution has no entry at that path at all. -/
theorem c2_counterexample_no_alternate_entry :
    getEntry
        (handleConflict (fun _ => ⟨2024, 9, 22, 14, 30, 55⟩)
          (analyzeFile "a.md" (some 500) (some 500) (some ⟨some 100, some 100⟩))
          (some 500) (some ⟨"a.md", 500, "a.md"⟩) 600 []).1
        (getConflictFileName "a.md" ⟨2024, 9, 22, 14, 30, 55⟩)
      = none := by
  decide

/-- C2 (amended): after a CONFLICT decision is successfully resolved for
a path, the working baseline entry for that path is updated exactly as
for an UPLOAD — the whole state-map update coincides with
`executeUpload` — while every other path, in particular the derived
conflict-named alternate path, keeps its previous (typically absent)
baseline entry; the alternate file is only created in the vault and is
picked up as CREATED on a later run. -/
theorem c2_conflict_updates_baseline_as_upload :
    ∀ (dateOf : Nat → DateParts) (decision : FileSyncDecision)
      (localMtime actualRemoteMtime : Nat) (rf : RemoteFile)
      (stateFiles : StateFilesMap),
      (handleConflict dateOf decision (some localMtime) (some rf) actualRemoteMtime
          stateFiles).1
        = executeUpload decision localMtime actualRemoteMtime stateFiles
      ∧ getEntry (handleConflict dateOf decision (some localMtime) (some rf)
            actualRemoteMtime stateFiles).1 decision.filePath
        = some { localMtime := some localMtime, remoteMtime := some actualRemoteMtime }
      ∧ ∀ q, q ≠ decision.filePath →
          getEntry (handleConflict dateOf decision (some localMtime) (some rf)
              actualRemoteMtime stateFiles).1 q
            = getEntry stateFiles q := by
  intro dateOf d lm arm rf st
  refine ⟨rfl, ?_, ?_⟩
  · exact getEntry_setEntry_self st d.filePath _
  · intro q hq
    exact getEntry_setEntry_ne st d.filePath q _ hq

/-- Witness for C2 (amended): a concrete resolved conflict leaves the
entry at the unrelated path `b.md` untouched. -/
theorem c2_witness :
    getEntry
        (handleConflict (fun _ => ⟨2024, 9, 22, 14, 30, 55⟩)
          (analyzeFile "a.md" (some 500) (some 500) (some ⟨some 100, some 100⟩))
          (some 500) (some ⟨"a.md", 500, "a.md"⟩) 600
          [("a.md", ⟨some 100, some 100⟩)]).1
        "b.md"
      = getEntry [("a.md", (⟨some 100, some 100⟩ : SyncFileState))] "b.md" :=
  (c2_conflict_updates_baseline_as_upload _ _ _ _ _ _).2.2 "b.md" (by decide)

/-- C7: an entry survives into the persisted baseline iff it was in the
working state with both timestamps defined — entries with exactly one or
neither side defined are dropped — and consequently the baseline
committed by a successful run never holds a half-defined entry. -/
theorem c7_no_half_entries_persisted :
    (∀ (stateFiles : StateFilesMap) (k : String) (v : SyncFileState),
        ((k, v) ∈ saveUpdatedSyncState stateFiles ↔
          (k, v) ∈ stateFiles ∧ v.localMtime.isSome = true ∧ v.remoteMtime.isSome = true))
    ∧ ∀ (previousState : StateFilesMap)
        (snapshot : Except String (LocalFilesMap × RemoteFilesMap × StateFilesMap))
        (step : FileSyncDecision → StateFilesMap → Except String StateFilesMap)
        (k : String) (v : SyncFileState),
        (runSync previousState snapshot step).status = RunStatus.SUCCESS →
        (k, v) ∈ (runSync previousState snapshot step).committedState →
        v.localMtime.isSome = true ∧ v.remoteMtime.isSome = true := by
  constructor
  · exact mem_saveUpdatedSyncState
  · intro prev snap step k v hs hmem
    rcases snap with e | ⟨l, r, s⟩
    · simp [runSync] at hs
    · rcases hexec : executeSyncDecisions step (generateSyncDecisions l r s) s with e | u
      · simp [runSync, hexec] at hs
      · simp [runSync, hexec] at hmem
        exact ((mem_saveUpdatedSyncState _ _ _).mp hmem).2

/-- Witness for C7: a successful run over a baseline-only path keeps its
complete entry, which has both sides defined. -/
theorem c7_witness :
    ((⟨some 1, some 2⟩ : SyncFileState).localMtime.isSome = true
      ∧ (⟨some 1, some 2⟩ : SyncFileState).remoteMtime.isSome = true) :=
  c7_no_half_entries_persisted.2 []
    (Except.ok ([], [], [("a.md", ⟨some 1, some 2⟩)])) (fun _ s => Except.ok s)
    "a.md" ⟨some 1, some 2⟩ (by decide) (by decide)

/-- C8: if the snapshot step throws, or the execution of the (ordered)
decision list throws on any action, the run reports FAILED and the
committed baseline is exactly the previously committed one — the save
step is never reached. -/
theorem c8_error_leaves_baseline_untouched :
    ∀ (previousState : StateFilesMap)
      (snapshot : Except String (LocalFilesMap × RemoteFilesMap × StateFilesMap))
      (step : FileSyncDecision → StateFilesMap → Except String StateFilesMap),
      (∀ e, snapshot = Except.error e →
        runSync previousState snapshot step =
          { status := RunStatus.FAILED, committedState := previousState })
      ∧ ∀ maps, snapshot = Except.ok maps →
          ∀ e, executeSyncDecisions step
              (generateSyncDecisions maps.1 maps.2.1 maps.2.2) maps.2.2 =
            Except.error e →
          runSync previousState snapshot step =
            { status := RunStatus.FAILED, committedState := previousState } := by
  intro prev snap step
  constructor
  · rintro e rfl
    rfl
  · rintro ⟨l, r, s⟩ rfl e hexec
    simp [runSync, hexec]

/-- Witness for C8: a failing snapshot and a failing download action
each leave the previous baseline as the committed state. -/
theorem c8_witness :
    runSync [("p.md", ⟨some 1, some 2⟩)] (Except.error "bucket unreachable")
        (fun _ s => Except.ok s)
      = { status := RunStatus.FAILED,
          committedState := [("p.md", ⟨some 1, some 2⟩)] }
    ∧ runSync [("p.md", ⟨some 1, some 2⟩)]
        (Except.ok ([], [("a.md", ⟨"a.md", 7, "a.md"⟩)], []))
        (fun _ _ => Except.error "write failed")
      = { status := RunStatus.FAILED,
          committedState := [("p.md", ⟨some 1, some 2⟩)] } := by
  constructor
  · exact (c8_error_leaves_baseline_untouched _ _ _).1 "bucket unreachable" rfl
  · exact (c8_error_leaves_baseline_untouched _ _ _).2
      ([], [("a.md", ⟨"a.md", 7, "a.md"⟩)], []) rfl "write failed" rfl

/-- C10: a side that is neither observed nor recorded in the baseline is
classified UNCHANGED (the classifier is a total function, so no error is
possible), and no input whatsoever makes the classifier return the
declared but unused status NONEXIST. -/
theorem c10_unobserved_unrecorded_UNCHANGED_no_NONEXIST :
    (∀ (syncState : Option SyncFileState) (isLocal : Bool),
        (if isLocal then Option.bind syncState SyncFileState.localMtime
         else Option.bind syncState SyncFileState.remoteMtime) = none →
        determineFileStatus none syncState isLocal = FileStatus.UNCHANGED)
    ∧ ∀ (file : Option Nat) (syncState : Option SyncFileState) (isLocal : Bool),
        determineFileStatus file syncState isLocal ≠ FileStatus.NONEXIST := by
  constructor
  · intro s b h
    rw [determineFileStatus_table, h]
  · intro f s b
    rw [determineFileStatus_table]
    generalize (if b then Option.bind s SyncFileState.localMtime
      else Option.bind s SyncFileState.remoteMtime) = st
    rcases f with _ | m <;> rcases st with _ | t
    · simp
    · by_cases ht : t = 0 <;> simp [ht]
    · simp
    · by_cases ht : t = 0
      · simp [ht]
      · by_cases hmt : m > t <;> simp [ht, hmt]

/-- Witness for C10: a path with no baseline entry, classified on the
local side with no local file observed. -/
theorem c10_witness :
    determineFileStatus none none true = FileStatus.UNCHANGED :=
  c10_unobserved_unrecorded_UNCHANGED_no_NONEXIST.1 none true rfl

theorem mem_filter_download {ds : List FileSyncDecision} {d : FileSyncDecision}
    (hd : d ∈ ds.filter (fun d => decide (d.action = SyncAction.DOWNLOAD))) :
    phaseIdx d.action = 0 := by
  have h := of_decide_eq_true (List.mem_filter.mp hd).2
  rw [h]
  rfl

theorem mem_filter_upload {ds : List FileSyncDecision} {d : FileSyncDecision}
    (hd : d ∈ ds.filter (fun d => decide (d.action = SyncAction.UPLOAD))) :
    phaseIdx d.action = 1 := by
  have h := of_decide_eq_true (List.mem_filter.mp hd).2
  rw [h]
  rfl

theorem mem_filter_delete {ds : List FileSyncDecision} {d : FileSyncDecision}
    (hd : d ∈ ds.filter (fun d =>
      decide (d.action = SyncAction.DELETE_LOCAL
        ∨ d.action = SyncAction.DELETE_REMOTE))) :
    phaseIdx d.action = 2 := by
  have h := of_decide_eq_true (List.mem_filter.mp hd).2
  rcases h with h | h <;> (rw [h]; rfl)

theorem mem_filter_conflict {ds : List FileSyncDecision} {d : FileSyncDecision}
    (hd : d ∈ ds.filter (fun d => decide (d.action = SyncAction.CONFLICT))) :
    phaseIdx d.action = 3 := by
  have h := of_decide_eq_true (List.mem_filter.mp hd).2
  rw [h]
  rfl

theorem pairwise_phase_of_const (l : List FileSyncDecision) (c : Nat)
    (h : ∀ d ∈ l, phaseIdx d.action = c) :
    List.Pairwise (fun a b => phaseIdx a.action ≤ phaseIdx b.action) l := by
  induction l with
  | nil => exact List.Pairwise.nil
  | cons x xs ih =>
    refine List.Pairwise.cons ?_ (ih ?_)
    · intro b hb
      rw [h x (List.mem_cons_self x xs), h b (List.mem_cons_of_mem x hb)]
    · intro d hd
      exact h d (List.mem_cons_of_mem x hd)

theorem pairwise_phase_append (l r : List FileSyncDecision) (c : Nat)
    (hl : List.Pairwise (fun a b => phaseIdx a.action ≤ phaseIdx b.action) l)
    (hr : List.Pairwise (fun a b => phaseIdx a.action ≤ phaseIdx b.action) r)
    (hub : ∀ a ∈ l, phaseIdx a.action ≤ c)
    (hlb : ∀ b ∈ r, c ≤ phaseIdx b.action) :
    List.Pairwise (fun a b => phaseIdx a.action ≤ phaseIdx b.action) (l ++ r) :=
  List.pairwise_append.mpr ⟨hl, hr, fun a ha b hb => le_trans (hub a ha) (hlb b hb)⟩

/-- C9: the executed action sequence is exactly the Download phase, then
the Upload phase, then the Delete phase (both delete directions), then
the Conflict phase — each phase precisely the decisions whose action
belongs to it — and along the executed sequence the phase index is
monotone, so no action of a later phase ever runs before one of an
earlier phase. -/
theorem c9_phases_in_order :
    ∀ decisions : List FileSyncDecision,
      orderedDecisions decisions =
          decisions.filter (fun d => decide (d.action = SyncAction.DOWNLOAD))
        ++ decisions.filter (fun d => decide (d.action = SyncAction.UPLOAD))
        ++ decisions.filter (fun d =>
            decide (d.action = SyncAction.DELETE_LOCAL
              ∨ d.action = SyncAction.DELETE_REMOTE))
        ++ decisions.filter (fun d => decide (d.action = SyncAction.CONFLICT))
      ∧ List.Pairwise (fun a b => phaseIdx a.action ≤ phaseIdx b.action)
          (orderedDecisions decisions) := by
  intro ds
  refine ⟨rfl, ?_⟩
  have h0 : ∀ d ∈ ds.filter (fun d => decide (d.action = SyncAction.DOWNLOAD)),
      phaseIdx d.action = 0 := fun d hd => mem_filter_download hd
  have h1 : ∀ d ∈ ds.filter (fun d => decide (d.action = SyncAction.UPLOAD)),
      phaseIdx d.action = 1 := fun d hd => mem_filter_upload hd
  have h2 : ∀ d ∈ ds.filter (fun d =>
      decide (d.action = SyncAction.DELETE_LOCAL
        ∨ d.action = SyncAction.DELETE_REMOTE)),
      phaseIdx d.action = 2 := fun d hd => mem_filter_delete hd
  have h3 : ∀ d ∈ ds.filter (fun d => decide (d.action = SyncAction.CONFLICT)),
      phaseIdx d.action = 3 := fun d hd => mem_filter_conflict hd
  show List.Pairwise (fun a b => phaseIdx a.action ≤ phaseIdx b.action)
    (ds.filter (fun d => decide (d.action = SyncAction.DOWNLOAD))
      ++ ds.filter (fun d => decide (d.action = SyncAction.UPLOAD))
      ++ ds.filter (fun d =>
          decide (d.action = SyncAction.DELETE_LOCAL
            ∨ d.action = SyncAction.DELETE_REMOTE))
      ++ ds.filter (fun d => decide (d.action = SyncAction.CONFLICT)))
  refine pairwise_phase_append _ _ 3
    (pairwise_phase_append _ _ 2
      (pairwise_phase_append _ _ 1
        (pairwise_phase_of_const _ 0 h0)
        (pairwise_phase_of_const _ 1 h1) ?_ ?_)
      (pairwise_phase_of_const _ 2 h2) ?_ ?_)
    (pairwise_phase_of_const _ 3 h3) ?_ ?_
  · intro a ha
    simp [h0 a ha]
  · intro b hb
    simp [h1 b hb]
  · intro a ha
    rcases List.mem_append.mp ha with h | h
    · simp [h0 a h]
    · simp [h1 a h]
  · intro b hb
    simp [h2 b hb]
  · intro a ha
    rcases List.mem_append.mp ha with h | h
    · rcases List.mem_append.mp h with hh | hh
      · simp [h0 a hh]
      · simp [h1 a hh]
    · simp [h2 a h]
  · intro b hb
    simp [h3 b hb]

end KissS3
